import Mathlib

/-!
Shallow embedding of `src/main.go` of the darkflow-front repository.

The program is an HTTP front-end: the `/recognize` handler decodes a JSON
body carrying `image_urls`, allocates a job id with `generateID`, creates
the job's input directory, downloads every image with `wget`, POSTs
`{input_dir, output_dir}` to the darkflow recognition service, lists the
job's output directory and answers with `/output/<id>/<name>` paths.

Effectful operations (the filesystem, the HTTP client, the random source,
the JSON decoder) are abstracted by an environment `Env` that fixes the
result of each call; the handler itself is translated as a straight-line
pure function from that environment to an `Outcome` recording the response
and every side effect the handler performed.
-/

namespace DarkflowFront

/-- Lowercase hexadecimal digits, as used by Go's `encoding/hex`. -/
def hexDigits : List Char := "0123456789abcdef".data

/-- The hex digit for a value below 16 (out-of-range values cannot arise from a byte). -/
def hexChar (n : Nat) : Char := hexDigits.getD n '0'

/-- `hex.EncodeToString`: every byte becomes two lowercase hex characters,
high nibble first. -/
def hexEncodeChars : List (Fin 256) → List Char
  | [] => []
  | b :: bs => hexChar (b.val / 16) :: hexChar (b.val % 16) :: hexEncodeChars bs

/-- `generateID` from `src/main.go`: read `(len-1)/2+1` bytes from the
cryptographically random source (modelled by the `entropy` oracle),
hex-encode them and truncate to `len` characters.  For `len ≥ 1` Go's
`int` division `(len-1)/2` agrees with the `Nat` division used here. -/
def generateID (entropy : Nat → Fin 256) (len : Nat) : String :=
  String.mk ((hexEncodeChars ((List.range ((len - 1) / 2 + 1)).map entropy)).take len)

/-- `filepath.Join` restricted to the clean, non-empty, slash-free
components this program joins (a root, a hex id, a file name). -/
def filepathJoin (a b : String) : String := a ++ "/" ++ b

/-- An HTTP response as delivered to `wget` by the insecure client. -/
structure HttpResp where
  statusCode : Nat
  bodyBytes : List (Fin 256)
deriving DecidableEq

/-- The world one `wget` call runs against: the result of
`insecureClient.Get` (`none` is a transport error), whether `os.Create`
succeeds, whether `io.Copy` succeeds, and the bytes a failing copy still
managed to write. -/
structure WgetWorld where
  getResult : Option HttpResp
  createOK : Bool
  copyOK : Bool
  copiedOnFail : List (Fin 256)
deriving DecidableEq

/-- What one `wget` call returned and did to the destination file. -/
structure WgetOutcome where
  err : Option String
  fileCreated : Bool
  fileContent : List (Fin 256)
deriving DecidableEq

/-- `wget` from `src/main.go`: GET the url, create the destination file,
copy the whole response body into it.  The response status code is never
inspected. -/
def wget (w : WgetWorld) : WgetOutcome :=
  match w.getResult with
  | none => ⟨some "could not wget image", false, []⟩
  | some resp =>
    if w.createOK = false then ⟨some "could not create file", false, []⟩
    else if w.copyOK = false then ⟨some "copy failed", true, w.copiedOnFail⟩
    else ⟨none, true, resp.bodyBytes⟩

/-- `recognizeRequest` from `src/main.go`: the decoded JSON body. -/
structure RecognizeRequest where
  imageURLs : List String
deriving DecidableEq

/-- `darkflowRequest` from `src/main.go`. -/
structure DarkflowRequest where
  inputDir : String
  outputDir : String
deriving DecidableEq

/-- JSON string literal; the paths this program encodes contain no
character that `encoding/json` escapes. -/
def jsonQuote (s : String) : String := "\"" ++ s ++ "\""

/-- The body `json.NewEncoder(&buf).Encode(darkflowRequest{..})` produces:
an object with exactly the keys `input_dir` and `output_dir` (the struct
tags), followed by the newline the encoder appends. -/
def encodeDarkflowRequest (r : DarkflowRequest) : String :=
  "\x7b\"input_dir\":" ++ jsonQuote r.inputDir ++ ",\"output_dir\":" ++
    jsonQuote r.outputDir ++ "\x7d\n"

/-- The body of a response rendered by the handler. -/
inductive RespPayload where
  | empty : RespPayload
  | reason : String → RespPayload
  | imgs : List String → RespPayload
deriving DecidableEq

/-- An HTTP POST the handler issued to the recognition service. -/
structure PostRecord where
  url : String
  contentType : String
  body : String
deriving DecidableEq

/-- Everything one run of the `recognize` handler returned and did:
response status and payload, the job id it drew, the directories it
created, the download loop iterations it ran, the files those downloads
created, and the POST it sent to the recognition service (if any). -/
structure Outcome where
  status : Nat
  payload : RespPayload
  jobID : Option String
  dirsCreated : List String
  downloadsAttempted : List Nat
  filesCreated : List String
  post : Option PostRecord
deriving DecidableEq

/-- Result of the download loop of the handler. -/
structure LoopResult where
  attempted : List Nat
  created : List String
  failure : Option (Nat × String)
deriving DecidableEq

/-- The `for i, img := range req.ImageURLs` loop of the handler: download
each image to `<input>/<i>.jpg` in order, stopping at the first failure. -/
def downloadLoop (w : Nat → WgetWorld) (input : String) : List String → Nat → LoopResult
  | [], _ => ⟨[], [], none⟩
  | _ :: rest, i =>
    let o := wget (w i)
    let path := filepathJoin input (toString i ++ ".jpg")
    let createdHere := if o.fileCreated then [path] else []
    match o.err with
    | some msg => ⟨[i], createdHere, some (i, msg)⟩
    | none =>
      let r := downloadLoop w input rest (i + 1)
      ⟨i :: r.attempted, createdHere ++ r.created, r.failure⟩

/-- The environment one request runs against: the request itself, the
configured roots and service URL (the program's flag globals), and the
result of every effectful call the handler can make. -/
structure Env where
  method : String
  decoded : Option RecognizeRequest
  entropy : Nat → Fin 256
  inputRoot : String
  outputRoot : String
  darkflowURL : String
  mkdirOK : Bool
  wgetWorld : Nat → WgetWorld
  encodeOK : Bool
  postResult : Option Nat
  readDirResult : Option (List String)

/-- The `recognize` handler from `src/main.go`, step for step:
OPTIONS short-circuit, body decode and non-emptiness check, id generation,
input directory creation, sequential downloads, darkflow POST, status
check, output directory listing, response rendering. -/
def recognize (env : Env) : Outcome :=
  if env.method = "OPTIONS" then
    ⟨200, .empty, none, [], [], [], none⟩
  else
    match env.decoded with
    | none => ⟨400, .reason "invalid json body", none, [], [], [], none⟩
    | some req =>
      match req.imageURLs with
      | [] => ⟨400, .reason "invalid json body", none, [], [], [], none⟩
      | u :: us =>
        let id := generateID env.entropy 8
        if env.mkdirOK = false then
          ⟨500, .reason "could not create input dir", some id, [], [], [], none⟩
        else
          let input := filepathJoin env.inputRoot id
          let loop := downloadLoop env.wgetWorld input (u :: us) 0
          match loop.failure with
          | some f => ⟨500, .reason f.2, some id, [input], loop.attempted, loop.created, none⟩
          | none =>
            let output := filepathJoin env.outputRoot id
            if env.encodeOK = false then
              ⟨500, .reason "could not encode darkflow request", some id, [input],
                loop.attempted, loop.created, none⟩
            else
              let dfPost : PostRecord :=
                ⟨env.darkflowURL, "application/json", encodeDarkflowRequest ⟨input, output⟩⟩
              match env.postResult with
              | none => ⟨500, .reason "could not call darkflow", some id, [input],
                  loop.attempted, loop.created, some dfPost⟩
              | some code =>
                if code ≠ 200 then
                  ⟨code, .reason "darkflow returned error", some id, [input],
                    loop.attempted, loop.created, some dfPost⟩
                else
                  match env.readDirResult with
                  | none => ⟨500, .reason "could not read output dir", some id, [input],
                      loop.attempted, loop.created, some dfPost⟩
                  | some files =>
                    ⟨200, .imgs (files.map (fun f => filepathJoin (filepathJoin "/output" id) f)),
                      some id, [input], loop.attempted, loop.created, some dfPost⟩

/-- An abstract `http.ResponseWriter`: the headers set so far, the
sequence of `WriteHeader` calls issued, and the body bytes written. -/
structure Writer where
  headers : List (String × String)
  statusWrites : List Nat
  body : String
deriving DecidableEq

/-- `w.Header().Set(k, v)`: replace any previous value of the key. -/
def setHeader (w : Writer) (k v : String) : Writer :=
  { w with headers := (w.headers.filter (fun p => p.1 ≠ k)) ++ [(k, v)] }

/-- `setupResponse` from `src/main.go`: the permissive CORS headers. -/
def setupResponse (w : Writer) : Writer :=
  setHeader
    (setHeader (setHeader w "Access-Control-Allow-Origin" "*")
      "Access-Control-Allow-Methods" "POST, GET, OPTIONS, PUT, DELETE")
    "Access-Control-Allow-Headers"
    "Accept, Content-Type, Content-Length, Accept-Encoding, X-CSRF-Token, Authorization"

/-- `w.WriteHeader(code)`: record the status write. -/
def writeHeader (w : Writer) (code : Nat) : Writer :=
  { w with statusWrites := w.statusWrites ++ [code] }

/-- `jsonResponse` from `src/main.go`: set CORS headers, write the status,
then JSON-encode the payload onto the writer (`encodeResult` is the
encoder's outcome: `none` is a marshalling or write failure).  On failure
it writes a bare 500 header and returns without a body and without the
content type; on success it appends the encoded payload and sets the
content type. -/
def jsonResponse (w : Writer) (status : Nat) (encodeResult : Option String) : Writer :=
  let w1 := writeHeader (setupResponse w) status
  match encodeResult with
  | none => writeHeader w1 500
  | some s => setHeader { w1 with body := w1.body ++ s } "Content-Type" "application/json"

/-- `jsonError` from `src/main.go`: render `{"reason": <msg>}` through
`jsonResponse`. -/
def jsonError (w : Writer) (status : Nat) (msg : String) (encodeOK : Bool) : Writer :=
  jsonResponse w status
    (if encodeOK then some ("\x7b\"reason\":" ++ jsonQuote msg ++ "\x7d\n") else none)

lemma hexChar_mem (n : Nat) : hexChar n ∈ hexDigits := by
  by_cases h : n < hexDigits.length
  · rw [hexChar, List.getD_eq_getElem _ _ h]
    exact List.getElem_mem h
  · rw [hexChar, List.getD_eq_default _ _ (le_of_not_lt h)]
    decide

lemma hexEncodeChars_mem {c : Char} {bs : List (Fin 256)}
    (h : c ∈ hexEncodeChars bs) : c ∈ hexDigits := by
  induction bs with
  | nil => simp [hexEncodeChars] at h
  | cons b bs ih =>
    simp only [hexEncodeChars, List.mem_cons] at h
    rcases h with h | h | h
    · exact h ▸ hexChar_mem _
    · exact h ▸ hexChar_mem _
    · exact ih h

lemma hexEncodeChars_length (bs : List (Fin 256)) :
    (hexEncodeChars bs).length = 2 * bs.length := by
  induction bs with
  | nil => rfl
  | cons b bs ih => simp [hexEncodeChars, ih]; ring

/-- C7: for every requested length n ≥ 1, `generateID` returns a string of
exactly n characters, each a lowercase hexadecimal digit, derived from the
bytes of the cryptographically random source; the `recognize` handler
invokes it with n = 8 (its job id, when one is drawn, is always
`generateID entropy 8`). -/
theorem c7_generateID_spec (entropy : Nat → Fin 256) (n : Nat) (h : 1 ≤ n) :
    (generateID entropy n).length = n ∧
    (∀ c ∈ (generateID entropy n).data, c ∈ hexDigits) ∧
    (∀ env : Env, (recognize env).jobID = none ∨
      (recognize env).jobID = some (generateID env.entropy 8)) := by
  refine ⟨?_, ?_, ?_⟩
  · show ((hexEncodeChars _).take n).length = n
    rw [List.length_take, hexEncodeChars_length, List.length_map, List.length_range]
    omega
  · intro c hc
    exact hexEncodeChars_mem (List.take_subset _ _ hc)
  · intro env
    unfold recognize
    simp only []
    repeat' split
    all_goals first | exact Or.inl rfl | exact Or.inr rfl

/-- C7 witness: at n = 3 with constant entropy byte 0xab, the id is "aba". -/
theorem c7_generateID_witness :
    (generateID (fun _ => (171 : Fin 256)) 3).length = 3 ∧
    (∀ c ∈ (generateID (fun _ => (171 : Fin 256)) 3).data, c ∈ hexDigits) := by
  have h := c7_generateID_spec (fun _ => (171 : Fin 256)) 3 (by decide)
  exact ⟨h.1, h.2.1⟩

/-- C10: `wget` treats any delivered HTTP response as a success regardless
of its status code: it succeeds exactly when the GET delivered a response,
the destination file could be created and the copy went through, and then
the full response body (error page or not) is written to the file; the
status code is never consulted. -/
theorem c10_wget_ignores_status (w : WgetWorld) :
    ((wget w).err = none ↔ w.getResult.isSome ∧ w.createOK = true ∧ w.copyOK = true) ∧
    (∀ r, w.getResult = some r → w.createOK = true → w.copyOK = true →
      (wget w).err = none ∧ (wget w).fileCreated = true ∧
      (wget w).fileContent = r.bodyBytes) := by
  constructor
  · rcases hg : w.getResult with _ | resp <;>
      cases hc : w.createOK <;> cases hk : w.copyOK <;> simp [wget, hg, hc, hk]
  · intro r hg hc hk
    simp [wget, hg, hc, hk]

/-- C10 witness: a 404 response is still copied to the file and reported
as a success. -/
theorem c10_wget_witness :
    (wget ⟨some ⟨404, [(171 : Fin 256)]⟩, true, true, []⟩).err = none ∧
    (wget ⟨some ⟨404, [(171 : Fin 256)]⟩, true, true, []⟩).fileContent =
      [(171 : Fin 256)] := by
  have h := (c10_wget_ignores_status ⟨some ⟨404, [(171 : Fin 256)]⟩, true, true, []⟩).2
    ⟨404, [(171 : Fin 256)]⟩ rfl rfl rfl
  exact ⟨h.1, h.2.2⟩

/-- C2: for every non-OPTIONS request whose body fails to decode or
decodes to a missing/empty image_urls list, the handler answers 400 with a
JSON reason object, allocates no job, creates no directory, attempts no
download and never calls the recognition service. -/
theorem c2_bad_request (env : Env) (hm : env.method ≠ "OPTIONS")
    (hbad : env.decoded = none ∨ ∃ req, env.decoded = some req ∧ req.imageURLs = []) :
    (recognize env).status = 400 ∧ (∃ m, (recognize env).payload = .reason m) ∧
    (recognize env).jobID = none ∧ (recognize env).dirsCreated = [] ∧
    (recognize env).downloadsAttempted = [] ∧ (recognize env).filesCreated = [] ∧
    (recognize env).post = none := by
  rcases hbad with h | ⟨req, h, hurls⟩
  · simp [recognize, h, hm]
  · simp [recognize, h, hurls, hm]

/-- C2 witness: a POST whose body does not decode gets a bare 400 and no
side effects. -/
theorem c2_bad_request_witness :
    (recognize ⟨"POST", none, fun _ => (0 : Fin 256), "/input", "/output",
      "http://darkflow:8000", true, fun _ => ⟨none, true, true, []⟩, true,
      none, none⟩).status = 400 :=
  (c2_bad_request _ (by decide) (Or.inl rfl)).1

/-- C9: if JSON-encoding the payload fails after the status has been
written, `jsonResponse` degrades to a bare 500: the write-header sequence
is the original status followed by 500 and no body is written; when the
encoding succeeds the payload is written in full (nothing else is
swallowed). -/
theorem c9_jsonResponse_encode_failure (w : Writer) (status : Nat)
    (hclean : w.statusWrites = [] ∧ w.body = "") :
    ((jsonResponse w status none).statusWrites = [status, 500] ∧
      (jsonResponse w status none).body = "") ∧
    (∀ s, (jsonResponse w status (some s)).statusWrites = [status] ∧
      (jsonResponse w status (some s)).body = s) := by
  obtain ⟨h1, h2⟩ := hclean
  constructor
  · simp [jsonResponse, writeHeader, setupResponse, setHeader, h1, h2]
  · intro s
    simp [jsonResponse, writeHeader, setupResponse, setHeader, h1, h2]

/-- C9 witness: on a fresh writer with status 200 and a failing encoder,
the result is the bare 500 with empty body. -/
theorem c9_jsonResponse_witness :
    (jsonResponse ⟨[], [], ""⟩ 200 none).statusWrites = [200, 500] ∧
    (jsonResponse ⟨[], [], ""⟩ 200 none).body = "" :=
  (c9_jsonResponse_encode_failure ⟨[], [], ""⟩ 200 ⟨rfl, rfl⟩).1

lemma wget_success_fileCreated {w : WgetWorld} (h : (wget w).err = none) :
    (wget w).fileCreated = true := by
  rcases hg : w.getResult with _ | resp <;>
    cases hc : w.createOK <;> cases hk : w.copyOK <;> simp [wget, hg, hc, hk] at h ⊢

lemma downloadLoop_success (w : Nat → WgetWorld) (input : String) (l : List String) :
    ∀ s : Nat, (∀ d, d < l.length → (wget (w (s + d))).err = none) →
      (downloadLoop w input l s).failure = none ∧
      (downloadLoop w input l s).attempted = List.range' s l.length ∧
      (downloadLoop w input l s).created = (List.range' s l.length).map
        (fun i => filepathJoin input (toString i ++ ".jpg")) := by
  induction l with
  | nil => intro s _; simp [downloadLoop]
  | cons x rest ih =>
    intro s hok
    have h0 : (wget (w s)).err = none := by simpa using hok 0 (by simp)
    have hrest := ih (s + 1) (fun d hd => by
      have h := hok (d + 1) (by simpa using Nat.succ_lt_succ hd)
      have e : s + (d + 1) = s + 1 + d := by omega
      rw [e] at h
      exact h)
    have hcr : (wget (w s)).fileCreated = true := wget_success_fileCreated h0
    simp only [downloadLoop, h0, hcr]
    refine ⟨hrest.1, ?_, ?_⟩
    · rw [hrest.2.1, List.length_cons, List.range'_succ]
    · rw [hrest.2.2, List.length_cons, List.range'_succ]
      simp

lemma downloadLoop_fail (w : Nat → WgetWorld) (input : String) (l : List String) :
    ∀ s j : Nat, j < l.length →
      (∀ d, d < j → (wget (w (s + d))).err = none) →
      (wget (w (s + j))).err ≠ none →
      (∃ msg, (downloadLoop w input l s).failure = some (s + j, msg)) ∧
      (downloadLoop w input l s).attempted = List.range' s (j + 1) ∧
      ∀ d, d < j → filepathJoin input (toString (s + d) ++ ".jpg") ∈
        (downloadLoop w input l s).created := by
  induction l with
  | nil => intro s j hj; simp at hj
  | cons x rest ih =>
    intro s j hj hok hfail
    cases j with
    | zero =>
      rw [Nat.add_zero] at hfail
      rcases he : (wget (w s)).err with _ | msg
      · exact absurd he hfail
      · simp only [downloadLoop, he]
        refine ⟨⟨msg, by simp⟩, by simp [List.range'_succ], ?_⟩
        intro d hd
        exact absurd hd (Nat.not_lt_zero d)
    | succ j' =>
      have h0 : (wget (w s)).err = none := by simpa using hok 0 (Nat.succ_pos j')
      have hcr : (wget (w s)).fileCreated = true := wget_success_fileCreated h0
      have hrest := ih (s + 1) j' (by simp only [List.length_cons] at hj; omega)
        (fun d hd => by
          have h := hok (d + 1) (Nat.succ_lt_succ hd)
          have e : s + (d + 1) = s + 1 + d := by omega
          rw [e] at h
          exact h)
        (by
          have e : s + (j' + 1) = s + 1 + j' := by omega
          rw [e] at hfail
          exact hfail)
      obtain ⟨⟨msg, hfl⟩, hat, hmem⟩ := hrest
      simp only [downloadLoop, h0, hcr]
      refine ⟨⟨msg, by
        have e : s + 1 + j' = s + (j' + 1) := by omega
        rw [hfl, e]⟩, ?_, ?_⟩
      · rw [hat]
        conv_rhs => rw [List.range'_succ]
      · intro d hd
        cases d with
        | zero => simp
        | succ d' =>
          have h := hmem d' (Nat.lt_of_succ_lt_succ hd)
          have e : s + (d' + 1) = s + 1 + d' := by omega
          rw [e]
          simp only [List.mem_append, List.mem_cons]
          right
          exact h

/-- C5: for every validated request with k image URLs, the handler
downloads the URLs one at a time in list order, writing the i-th URL
(0-based) to `<input-root>/<job-id>/i.jpg`, so the created files are
`0.jpg` through `(k-1).jpg` by position. -/
theorem c5_sequential_downloads (env : Env) (req : RecognizeRequest)
    (hm : env.method ≠ "OPTIONS") (hd : env.decoded = some req)
    (hne : req.imageURLs ≠ []) (hmk : env.mkdirOK = true)
    (hdl : ∀ d, d < req.imageURLs.length → (wget (env.wgetWorld d)).err = none) :
    (recognize env).downloadsAttempted = List.range req.imageURLs.length ∧
    (recognize env).filesCreated = (List.range req.imageURLs.length).map
      (fun i => filepathJoin (filepathJoin env.inputRoot (generateID env.entropy 8))
        (toString i ++ ".jpg")) := by
  obtain ⟨u, us, hurls⟩ : ∃ u us, req.imageURLs = u :: us := by
    cases h : req.imageURLs with
    | nil => exact absurd h hne
    | cons a b => exact ⟨a, b, rfl⟩
  have hloop := downloadLoop_success env.wgetWorld
    (filepathJoin env.inputRoot (generateID env.entropy 8)) (u :: us) 0
    (fun d hd2 => by simpa using hdl d (by rw [hurls]; exact hd2))
  obtain ⟨hfl, hat, hcr⟩ := hloop
  rw [hurls, List.range_eq_range']
  simp only [recognize, hm, hd, hurls, hmk]
  repeat' split
  all_goals simp_all [hfl, hat, hcr]

/-- C5 witness: two URLs are fetched in order into 0.jpg and 1.jpg. -/
theorem c5_sequential_downloads_witness :
    (recognize ⟨"POST", some ⟨["http://imgs/a.jpg", "http://imgs/b.jpg"]⟩,
      fun _ => (171 : Fin 256), "/input", "/output", "http://darkflow:8000", true,
      fun _ => ⟨some ⟨200, []⟩, true, true, []⟩, true, some 200,
      some ["res.jpg"]⟩).downloadsAttempted = List.range 2 ∧
    (recognize ⟨"POST", some ⟨["http://imgs/a.jpg", "http://imgs/b.jpg"]⟩,
      fun _ => (171 : Fin 256), "/input", "/output", "http://darkflow:8000", true,
      fun _ => ⟨some ⟨200, []⟩, true, true, []⟩, true, some 200,
      some ["res.jpg"]⟩).filesCreated =
      ["/input/abababab/0.jpg", "/input/abababab/1.jpg"] := by
  have h := c5_sequential_downloads ⟨"POST", some ⟨["http://imgs/a.jpg", "http://imgs/b.jpg"]⟩,
      fun _ => (171 : Fin 256), "/input", "/output", "http://darkflow:8000", true,
      fun _ => ⟨some ⟨200, []⟩, true, true, []⟩, true, some 200, some ["res.jpg"]⟩
    ⟨["http://imgs/a.jpg", "http://imgs/b.jpg"]⟩ (by decide) rfl (by decide) rfl
    (fun d _ => rfl)
  exact ⟨h.1, h.2.trans (by decide)⟩

/-- C3: for every validated request, if the download of some image URL
fails, the handler answers 500 with a reason object, downloads for later
positions are never attempted (exactly positions 0..j ran), files
downloaded at earlier positions remain on disk, and no POST to the
recognition service is made. -/
theorem c3_download_failure (env : Env) (req : RecognizeRequest) (j : Nat)
    (hm : env.method ≠ "OPTIONS") (hd : env.decoded = some req)
    (hne : req.imageURLs ≠ []) (hmk : env.mkdirOK = true)
    (hj : j < req.imageURLs.length)
    (hok : ∀ d, d < j → (wget (env.wgetWorld d)).err = none)
    (hfail : (wget (env.wgetWorld j)).err ≠ none) :
    (recognize env).status = 500 ∧
    (∃ m, (recognize env).payload = .reason m) ∧
    (recognize env).post = none ∧
    (recognize env).downloadsAttempted = List.range (j + 1) ∧
    ∀ d, d < j → filepathJoin (filepathJoin env.inputRoot (generateID env.entropy 8))
      (toString d ++ ".jpg") ∈ (recognize env).filesCreated := by
  obtain ⟨u, us, hurls⟩ : ∃ u us, req.imageURLs = u :: us := by
    cases h : req.imageURLs with
    | nil => exact absurd h hne
    | cons a b => exact ⟨a, b, rfl⟩
  have hloop := downloadLoop_fail env.wgetWorld
    (filepathJoin env.inputRoot (generateID env.entropy 8)) (u :: us) 0 j
    (by rw [← hurls]; exact hj)
    (fun d hd2 => by simpa using hok d hd2)
    (by simpa using hfail)
  obtain ⟨⟨msg, hfl⟩, hat, hmem⟩ := hloop
  rw [List.range_eq_range']
  simp only [recognize, hm, hd, hurls, hmk]
  rw [Nat.zero_add] at hfl
  simp only [hfl]
  refine ⟨rfl, ⟨msg, rfl⟩, rfl, hat, ?_⟩
  intro d hdj
  have h := hmem d hdj
  rw [Nat.zero_add] at h
  exact h

/-- C3 witness: the second of three URLs fails, the first file stays, the
third is never attempted and no darkflow call happens. -/
theorem c3_download_failure_witness :
    (recognize ⟨"POST", some ⟨["http://imgs/a.jpg", "http://imgs/b.jpg", "http://imgs/c.jpg"]⟩,
      fun _ => (171 : Fin 256), "/input", "/output", "http://darkflow:8000", true,
      fun i => if i = 1 then ⟨none, true, true, []⟩ else ⟨some ⟨200, []⟩, true, true, []⟩,
      true, some 200, some ["res.jpg"]⟩).status = 500 ∧
    (recognize ⟨"POST", some ⟨["http://imgs/a.jpg", "http://imgs/b.jpg", "http://imgs/c.jpg"]⟩,
      fun _ => (171 : Fin 256), "/input", "/output", "http://darkflow:8000", true,
      fun i => if i = 1 then ⟨none, true, true, []⟩ else ⟨some ⟨200, []⟩, true, true, []⟩,
      true, some 200, some ["res.jpg"]⟩).post = none ∧
    (recognize ⟨"POST", some ⟨["http://imgs/a.jpg", "http://imgs/b.jpg", "http://imgs/c.jpg"]⟩,
      fun _ => (171 : Fin 256), "/input", "/output", "http://darkflow:8000", true,
      fun i => if i = 1 then ⟨none, true, true, []⟩ else ⟨some ⟨200, []⟩, true, true, []⟩,
      true, some 200, some ["res.jpg"]⟩).downloadsAttempted = List.range 2 ∧
    "/input/abababab/0.jpg" ∈ (recognize ⟨"POST",
      some ⟨["http://imgs/a.jpg", "http://imgs/b.jpg", "http://imgs/c.jpg"]⟩,
      fun _ => (171 : Fin 256), "/input", "/output", "http://darkflow:8000", true,
      fun i => if i = 1 then ⟨none, true, true, []⟩ else ⟨some ⟨200, []⟩, true, true, []⟩,
      true, some 200, some ["res.jpg"]⟩).filesCreated := by
  have h := c3_download_failure ⟨"POST",
      some ⟨["http://imgs/a.jpg", "http://imgs/b.jpg", "http://imgs/c.jpg"]⟩,
      fun _ => (171 : Fin 256), "/input", "/output", "http://darkflow:8000", true,
      fun i => if i = 1 then ⟨none, true, true, []⟩ else ⟨some ⟨200, []⟩, true, true, []⟩,
      true, some 200, some ["res.jpg"]⟩
    ⟨["http://imgs/a.jpg", "http://imgs/b.jpg", "http://imgs/c.jpg"]⟩ 1
    (by decide) rfl (by decide) rfl (by decide)
    (by intro d hd; interval_cases d; rfl) (by decide)
  refine ⟨h.1, h.2.2.1, h.2.2.2.1, ?_⟩
  have hm := h.2.2.2.2 0 (by decide)
  simpa using hm

/-- C1: for every successful run of the pipeline, the response is the
array of paths `/output/<job-id>/<entry-name>`, one per directory entry
returned by listing the job's output directory, in listing order; its
length is the number of entries (not the number of input URLs). -/
theorem c1_success_response (env : Env) (req : RecognizeRequest) (files : List String)
    (hm : env.method ≠ "OPTIONS") (hd : env.decoded = some req)
    (hne : req.imageURLs ≠ []) (hmk : env.mkdirOK = true)
    (hdl : ∀ d, d < req.imageURLs.length → (wget (env.wgetWorld d)).err = none)
    (henc : env.encodeOK = true) (hpost : env.postResult = some 200)
    (hrd : env.readDirResult = some files) :
    (recognize env).status = 200 ∧
    (recognize env).payload = .imgs (files.map (fun name =>
      filepathJoin (filepathJoin "/output" (generateID env.entropy 8)) name)) ∧
    (files.map (fun name =>
      filepathJoin (filepathJoin "/output" (generateID env.entropy 8)) name)).length =
      files.length := by
  obtain ⟨u, us, hurls⟩ : ∃ u us, req.imageURLs = u :: us := by
    cases h : req.imageURLs with
    | nil => exact absurd h hne
    | cons a b => exact ⟨a, b, rfl⟩
  have hloop := (downloadLoop_success env.wgetWorld
    (filepathJoin env.inputRoot (generateID env.entropy 8)) (u :: us) 0
    (fun d hd2 => by simpa using hdl d (by rw [hurls]; exact hd2))).1
  simp [recognize, hm, hd, hurls, hmk, henc, hpost, hrd, hloop]

/-- C1 witness: one input URL, three files in the output directory, three
paths in the response. -/
theorem c1_success_response_witness :
    (recognize ⟨"POST", some ⟨["http://imgs/a.jpg"]⟩, fun _ => (171 : Fin 256),
      "/input", "/output", "http://darkflow:8000", true,
      fun _ => ⟨some ⟨200, []⟩, true, true, []⟩, true, some 200,
      some ["r0.jpg", "r1.jpg", "r2.jpg"]⟩).status = 200 ∧
    (recognize ⟨"POST", some ⟨["http://imgs/a.jpg"]⟩, fun _ => (171 : Fin 256),
      "/input", "/output", "http://darkflow:8000", true,
      fun _ => ⟨some ⟨200, []⟩, true, true, []⟩, true, some 200,
      some ["r0.jpg", "r1.jpg", "r2.jpg"]⟩).payload =
      .imgs ["/output/abababab/r0.jpg", "/output/abababab/r1.jpg",
        "/output/abababab/r2.jpg"] := by
  have h := c1_success_response ⟨"POST", some ⟨["http://imgs/a.jpg"]⟩,
      fun _ => (171 : Fin 256), "/input", "/output", "http://darkflow:8000", true,
      fun _ => ⟨some ⟨200, []⟩, true, true, []⟩, true, some 200,
      some ["r0.jpg", "r1.jpg", "r2.jpg"]⟩
    ⟨["http://imgs/a.jpg"]⟩ ["r0.jpg", "r1.jpg", "r2.jpg"]
    (by decide) rfl (by decide) rfl (fun d _ => rfl) rfl rfl rfl
  exact ⟨h.1, h.2.1.trans (by decide)⟩

/-- C4: the recognition-service call succeeds exactly when the remote
status is OK (200): any other status, other 2xx included, is treated as a
failure and propagated verbatim to the client with a JSON reason body,
while a 200 lets the run finish with a 200 once the output directory can
be listed. -/
theorem c4_status_propagation (env : Env) (req : RecognizeRequest) (code : Nat)
    (hm : env.method ≠ "OPTIONS") (hd : env.decoded = some req)
    (hne : req.imageURLs ≠ []) (hmk : env.mkdirOK = true)
    (hdl : ∀ d, d < req.imageURLs.length → (wget (env.wgetWorld d)).err = none)
    (henc : env.encodeOK = true) (hpost : env.postResult = some code) :
    (code ≠ 200 → (recognize env).status = code ∧
      ∃ m, (recognize env).payload = .reason m) ∧
    (code = 200 → ∀ files, env.readDirResult = some files →
      (recognize env).status = 200) := by
  obtain ⟨u, us, hurls⟩ : ∃ u us, req.imageURLs = u :: us := by
    cases h : req.imageURLs with
    | nil => exact absurd h hne
    | cons a b => exact ⟨a, b, rfl⟩
  have hloop := (downloadLoop_success env.wgetWorld
    (filepathJoin env.inputRoot (generateID env.entropy 8)) (u :: us) 0
    (fun d hd2 => by simpa using hdl d (by rw [hurls]; exact hd2))).1
  constructor
  · intro hcode
    simp [recognize, hm, hd, hurls, hmk, henc, hpost, hloop, hcode]
  · intro hcode files hrd
    subst hcode
    simp [recognize, hm, hd, hurls, hmk, henc, hpost, hrd, hloop]

/-- C4 witness: a 201 from the recognition service — a 2xx that is not
OK — is propagated as the client-visible 201 with a reason body. -/
theorem c4_status_propagation_witness :
    (recognize ⟨"POST", some ⟨["http://imgs/a.jpg"]⟩, fun _ => (171 : Fin 256),
      "/input", "/output", "http://darkflow:8000", true,
      fun _ => ⟨some ⟨200, []⟩, true, true, []⟩, true, some 201,
      some ["r0.jpg"]⟩).status = 201 := by
  have h := c4_status_propagation ⟨"POST", some ⟨["http://imgs/a.jpg"]⟩,
      fun _ => (171 : Fin 256), "/input", "/output", "http://darkflow:8000", true,
      fun _ => ⟨some ⟨200, []⟩, true, true, []⟩, true, some 201, some ["r0.jpg"]⟩
    ⟨["http://imgs/a.jpg"]⟩ 201 (by decide) rfl (by decide) rfl
    (fun d _ => rfl) rfl rfl
  exact (h.1 (by decide)).1

/-- C6: whenever the handler reaches the recognition-service call, it
issues exactly one POST, to the configured base URL, with content type
application/json, whose body is a JSON object with exactly the two keys
input_dir and output_dir valued with the job's input and output directory
paths. -/
theorem c6_darkflow_request_shape (env : Env) (req : RecognizeRequest)
    (hm : env.method ≠ "OPTIONS") (hd : env.decoded = some req)
    (hne : req.imageURLs ≠ []) (hmk : env.mkdirOK = true)
    (hdl : ∀ d, d < req.imageURLs.length → (wget (env.wgetWorld d)).err = none)
    (henc : env.encodeOK = true) :
    (recognize env).post = some ⟨env.darkflowURL, "application/json",
      encodeDarkflowRequest ⟨filepathJoin env.inputRoot (generateID env.entropy 8),
        filepathJoin env.outputRoot (generateID env.entropy 8)⟩⟩ ∧
    ∀ r : DarkflowRequest, encodeDarkflowRequest r =
      "\x7b\"input_dir\":\"" ++ r.inputDir ++ "\",\"output_dir\":\"" ++
        r.outputDir ++ "\"\x7d\n" := by
  obtain ⟨u, us, hurls⟩ : ∃ u us, req.imageURLs = u :: us := by
    cases h : req.imageURLs with
    | nil => exact absurd h hne
    | cons a b => exact ⟨a, b, rfl⟩
  have hloop := (downloadLoop_success env.wgetWorld
    (filepathJoin env.inputRoot (generateID env.entropy 8)) (u :: us) 0
    (fun d hd2 => by simpa using hdl d (by rw [hurls]; exact hd2))).1
  constructor
  · simp only [recognize, hm, hd, hurls, hmk, henc, hloop]
    repeat' split
    all_goals simp_all [hloop]
  · intro r
    apply String.ext
    simp [encodeDarkflowRequest, jsonQuote, String.data_append]

/-- C6 witness: the concrete POST record for a one-image job. -/
theorem c6_darkflow_request_witness :
    (recognize ⟨"POST", some ⟨["http://imgs/a.jpg"]⟩, fun _ => (171 : Fin 256),
      "/input", "/output", "http://darkflow:8000", true,
      fun _ => ⟨some ⟨200, []⟩, true, true, []⟩, true, some 200,
      some ["r0.jpg"]⟩).post = some ⟨"http://darkflow:8000", "application/json",
      "\x7b\"input_dir\":\"/input/abababab\",\"output_dir\":\"/output/abababab\"\x7d\n"⟩ := by
  have h := c6_darkflow_request_shape ⟨"POST", some ⟨["http://imgs/a.jpg"]⟩,
      fun _ => (171 : Fin 256), "/input", "/output", "http://darkflow:8000", true,
      fun _ => ⟨some ⟨200, []⟩, true, true, []⟩, true, some 200, some ["r0.jpg"]⟩
    ⟨["http://imgs/a.jpg"]⟩ (by decide) rfl (by decide) rfl (fun d _ => rfl) rfl
  exact h.1.trans (by decide)

/-- C8: the request handler never creates the output directory: every
directory it creates is the job's input directory
`<input-root>/<job-id>`, while the output directory path
`<output-root>/<job-id>` is only computed and sent to the external
service inside the POST body. -/
theorem c8_output_dir_not_created (env : Env) :
    (∀ d ∈ (recognize env).dirsCreated,
      d = filepathJoin env.inputRoot (generateID env.entropy 8)) ∧
    (∀ p, (recognize env).post = some p →
      p.body = encodeDarkflowRequest
        ⟨filepathJoin env.inputRoot (generateID env.entropy 8),
         filepathJoin env.outputRoot (generateID env.entropy 8)⟩) := by
  unfold recognize
  simp only []
  repeat' split
  all_goals simp

/-- C8 witness: on a fully successful run the only directory created is
the job's input directory. -/
theorem c8_output_dir_not_created_witness :
    "/input/abababab" = filepathJoin "/input"
      (generateID (fun _ => (171 : Fin 256)) 8) :=
  (c8_output_dir_not_created ⟨"POST", some ⟨["http://imgs/a.jpg"]⟩,
      fun _ => (171 : Fin 256), "/input", "/output", "http://darkflow:8000", true,
      fun _ => ⟨some ⟨200, []⟩, true, true, []⟩, true, some 200,
      some ["r0.jpg"]⟩).1 "/input/abababab" (by decide)

end DarkflowFront
